import Mathlib

/-!
# Verification of the MS5803-05 pressure sensor driver

A shallow embedding of the arithmetic core of `MS5803_05.h`:

* the CRC-4 validation of the calibration coefficients (`MS_5803_CRC`,
  `initMS_5803` modelling `MS_5803::initializeMS_5803`),
* the raw-to-physical conversion pipeline (`convertRaw` modelling
  `MS_5803::convertRaw`),
* a small state machine over the public operations (`exec`, `runTrace`)
  capturing construction, the init call, and `readSensor`.

Machine integers are modelled as `ℕ`/`ℤ`.  C two's-complement truncation to
`int32_t` / `int64_t` at assignments and casts is written explicitly with
`wrap32` / `wrap64`; C signed division is `Int.tdiv` (truncation toward zero);
16-bit unsigned arithmetic in the CRC is `ℕ` arithmetic reduced `% 65536`.
The coefficient array `uint16_t[8]` is modelled as a function `ℕ → ℕ`, with
the `uint16_t` range imposed as hypotheses in the theorems.

The floating-point outputs `mbar` and `tempC` (a cast of an exact 32-bit
integer to `float`, then division by 100) are modelled as exact rationals
`mbarInt / 100` and `TEMP / 100`, the values the specification describes.

A second family of definitions (`crcStepSpec`, `crcSpec`, `specConvert`)
transcribes the *specification's* wording (spec.md §4.1 and §4.2) with exact
integer arithmetic, to be compared with the source-level definitions.
-/

set_option maxRecDepth 16000

namespace MS5803

/-- Two's-complement truncation to 32 bits: the value a C `int32_t`
assignment or cast stores. -/
def wrap32 (x : ℤ) : ℤ := (x + 2147483648) % 4294967296 - 2147483648

/-- Two's-complement truncation to 64 bits: the value a C `int64_t`
assignment or cast stores. -/
def wrap64 (x : ℤ) : ℤ :=
  (x + 9223372036854775808) % 18446744073709551616 - 9223372036854775808

/-! ## CRC-4 (source: `MS_5803::MS_5803_CRC`) -/

/-- One iteration of the inner loop of `MS_5803_CRC`:
`if (n_rem & 0x8000) n_rem = (n_rem << 1) ^ 0x3000; else n_rem = (n_rem << 1);`
with the 16-bit truncation the `uint16_t` assignment performs. -/
def crcStep (r : ℕ) : ℕ :=
  if r &&& 0x8000 ≠ 0 then ((r <<< 1) ^^^ 0x3000) % 65536 else (r <<< 1) % 65536

/-- One iteration of the outer loop body after the byte has been chosen:
XOR the byte into the remainder, then run the 8 inner-loop shifts. -/
def crcRound (r b : ℕ) : ℕ := crcStep^[8] (r ^^^ b)

/-- The byte the outer loop XORs in at counter value `cnt`:
low byte of `coeffs[cnt>>1]` when `cnt` is odd, high byte when even. -/
def byteAt (p : ℕ → ℕ) (cnt : ℕ) : ℕ :=
  if cnt % 2 = 1 then p (cnt >>> 1) &&& 0x00FF else p (cnt >>> 1) >>> 8

/-- The 16-bit remainder after the 16 outer-loop iterations, starting at 0. -/
def crc16 (p : ℕ → ℕ) : ℕ :=
  (List.range 16).foldl (fun r cnt => crcRound r (byteAt p cnt)) 0

/-- The remainder fold over an explicit byte list (analysis form of the
outer loop; `crc16` is bridged to it below). -/
def crcRun (r : ℕ) (bs : List ℕ) : ℕ := bs.foldl crcRound r

/-- The 16 bytes the outer loop consumes, as a list (analysis form). -/
def byteList (p : ℕ → ℕ) : List ℕ := (List.range 16).map (byteAt p)

/-- `MS_5803::MS_5803_CRC`.  The function mutates `sensorCoeffs[7]` (zeroing
its low byte) before the loop and restores it afterwards; we return the pair
(returned CRC, final state of the coefficient array). -/
def MS_5803_CRC (sensorCoeffs : ℕ → ℕ) : ℕ × (ℕ → ℕ) :=
  let crc_read := sensorCoeffs 7
  let masked := Function.update sensorCoeffs 7 (0xFF00 &&& sensorCoeffs 7)
  let n_rem := crc16 masked
  let n_rem := 0x000F &&& (n_rem >>> 12)
  (n_rem ^^^ 0x00, Function.update masked 7 crc_read)

/-- The CRC value `MS_5803_CRC` returns. -/
def crc4 (sensorCoeffs : ℕ → ℕ) : ℕ := (MS_5803_CRC sensorCoeffs).1

/-! ## Initialization (source: `MS_5803::initializeMS_5803`) -/

/-- The resolutions the driver's if/else chains recognise. -/
def validResolution (r : ℕ) : Bool :=
  r = 256 || r = 512 || r = 1024 || r = 2048 || r = 4096

/-- Result of the init call: the returned boolean, plus whether the
"specify a valid oversampling value" diagnostic was printed. -/
structure InitResult where
  ok : Bool
  printedResolutionError : Bool
deriving DecidableEq, Repr

/-- Models `MS_5803::initializeMS_5803` (the bus I/O abstracted away:
`coeffsRead` is the 8-word array the PROM reads produce).  Note the source
stores `uint8_t p_crc = sensorCoeffs[7];` — the full low byte, truncated by
the `uint8_t` cast — and returns `p_crc == n_crc`; the resolution check only
controls a Serial diagnostic and never the return value. -/
def initMS_5803 (Verbose : Bool) (Resolution : ℕ) (coeffsRead : ℕ → ℕ) :
    InitResult :=
  let p_crc := coeffsRead 7 % 256
  let n_crc := crc4 coeffsRead
  { ok := p_crc == n_crc
    printedResolutionError := Verbose && !(validResolution Resolution) }

/-! ## Conversion pipeline (source: `MS_5803::convertRaw`) -/

/-- The scratch state `convertRaw` leaves behind: the intermediates stored in
the instance fields, plus the two outputs. -/
@[ext]
structure ConvOut where
  dT : ℤ
  TEMP : ℤ
  varT2 : ℤ
  OFF2 : ℤ
  Sens2 : ℤ
  Offset : ℤ
  Sensitivity : ℤ
  mbarInt : ℤ
  mbar : ℚ
  tempC : ℚ
deriving DecidableEq, Repr

/-- `MS_5803::convertRaw`, transcribed with every C evaluation width spelled
out.  `d1Val`, `d2Val` are the `uint32_t` arguments; `C` holds the
`uint16_t` coefficients.  The second-order terms `OFF2`/`Sens2` are computed
in plain `int` (32-bit) arithmetic — exactly as in the source, where the
squaring of `TEMP-2000` is not widened to 64 bits. -/
def convertRaw (C : ℕ → ℕ) (d1Val d2Val : ℕ) : ConvOut :=
  let dT : ℤ := wrap32 (wrap32 (d2Val : ℤ) - wrap32 ((C 5 : ℤ) * 256))
  let TEMP : ℤ := wrap32 (2000 + (wrap64 (dT * (C 6 : ℤ))).tdiv 8388608)
  let varT2 : ℤ :=
    if TEMP < 2000 then
      wrap32 (wrap64 ((wrap64 (3 * (dT * dT)) % 18446744073709551616).tdiv
        8589934592))
    else 0
  let OFF2 : ℤ :=
    if TEMP < 2000 then
      (wrap32 (3 * wrap32 (wrap32 (TEMP - 2000) * wrap32 (TEMP - 2000)))).tdiv 8
    else 0
  let Sens2 : ℤ :=
    if TEMP < 2000 then
      (wrap32 (7 * wrap32 (wrap32 (TEMP - 2000) * wrap32 (TEMP - 2000)))).tdiv 8
    else 0
  let Offset : ℤ :=
    wrap64 (wrap64 ((C 2 : ℤ) * 262144) + (wrap64 ((C 4 : ℤ) * dT)).tdiv 32)
  let Sensitivity : ℤ :=
    wrap64 (wrap64 ((C 1 : ℤ) * 131072) + (wrap64 ((C 3 : ℤ) * dT)).tdiv 128)
  let TEMP : ℤ := wrap32 (TEMP - varT2)
  let Offset : ℤ := wrap64 (Offset - OFF2)
  let Sensitivity : ℤ := wrap64 (Sensitivity - Sens2)
  let mbarInt : ℤ :=
    wrap32 ((wrap64 ((wrap64 ((d1Val : ℤ) * Sensitivity)).tdiv 2097152 -
      Offset)).tdiv 32768)
  { dT := dT, TEMP := TEMP, varT2 := varT2, OFF2 := OFF2, Sens2 := Sens2,
    Offset := Offset, Sensitivity := Sensitivity, mbarInt := mbarInt,
    mbar := (mbarInt : ℚ) / 100, tempC := (TEMP : ℚ) / 100 }

/-! ## Public-operation state machine (constructor, init, `readSensor`) -/

/-- The driver instance's state. -/
structure SensorState where
  _Resolution : ℕ
  sensorCoeffs : ℕ → ℕ
  varD1 : ℕ
  varD2 : ℕ
  conv : ConvOut

/-- The constructor `MS_5803::MS_5803`: stores the resolution and zeroes the
conversion scratch fields.  `mem` is the indeterminate prior content of the
object's memory (the constructor does not touch `sensorCoeffs`, `varD1`,
`varD2`, `mbar`, `tempC`). -/
def MS_5803mk (Resolution : ℕ) (mem : SensorState) : SensorState :=
  { mem with
    _Resolution := Resolution
    conv := { mem.conv with
              dT := 0
              TEMP := 0
              Offset := 0
              Sensitivity := 0
              varT2 := 0
              OFF2 := 0
              Sens2 := 0 } }

/-- A public operation, with the bytes the bus collaborator supplies. -/
inductive Op where
  | opInit (coeffsRead : ℕ → ℕ)
  | opRead (d1adc d2adc : ℕ)
  | opReset

/-- Caller-observable event of one operation: the boolean the init call
returns, or the compensated reading `readSensor` stores (what the
`temperature()` / `pressure()` accessors then expose). -/
inductive Ev where
  | evInit (ok : Bool)
  | evReading (mbar tempC : ℚ)
  | evNone
deriving DecidableEq, Repr

/-- Whether an event is the production of a compensated reading. -/
def Ev.isReading : Ev → Bool
  | .evReading _ _ => true
  | _ => false

/-- One public operation.  `opInit` stores the words read from the PROM (the
CRC routine restores `sensorCoeffs[7]`, so the net effect on the array is the
plain store) and returns the CRC verdict.  `opRead` models `readSensor`: with
a recognised resolution it stores fresh ADC samples, otherwise *none* of the
if/else branches runs and the old `varD1`/`varD2` survive; either way it then
calls `convertRaw` unconditionally. -/
def exec (s : SensorState) (op : Op) : SensorState × Ev :=
  match op with
  | .opInit c =>
      ({ s with sensorCoeffs := c },
       .evInit (initMS_5803 true s._Resolution c).ok)
  | .opRead d1 d2 =>
      let d1' := if validResolution s._Resolution then d1 else s.varD1
      let d2' := if validResolution s._Resolution then d2 else s.varD2
      let out := convertRaw s.sensorCoeffs d1' d2'
      ({ s with varD1 := d1', varD2 := d2', conv := out },
       .evReading out.mbar out.tempC)
  | .opReset => (s, .evNone)

/-- Run a sequence of public operations, collecting the events. -/
def runTrace (s : SensorState) : List Op → SensorState × List Ev
  | [] => (s, [])
  | op :: ops =>
      let se := exec s op
      let rest := runTrace se.1 ops
      (rest.1, se.2 :: rest.2)

/-! ## Specification-level definitions (spec.md §4.1, §4.2)

These transcribe the specification's *words*, to be compared with the
source-level definitions above. -/

/-- Spec §4.1 step 4, inner loop: "if the remainder's bit 15 is set, shift
left 1 and XOR with 0x3000, else just shift left 1 (16-bit arithmetic)". -/
def crcStepSpec (r : ℕ) : ℕ :=
  if r.testBit 15 then ((r * 2) % 65536) ^^^ 0x3000 else (r * 2) % 65536

/-- Spec §4.1 step 4: the 16 bytes of the 8 words, "byte index order 0..15
mapping to word[i>>1], high byte when i is even, low byte when i is odd". -/
def specBytes (p : ℕ → ℕ) : List ℕ :=
  (List.range 16).map
    (fun i => if i % 2 = 0 then p (i / 2) / 256 % 256 else p (i / 2) % 256)

/-- Spec §4.1 steps 2–5: zero the low byte of word 7 (high byte preserved),
fold the 16 bytes through the remainder, take bits 12–15. -/
def crcSpec (p : ℕ → ℕ) : ℕ :=
  let masked := Function.update p 7 (p 7 / 256 * 256)
  let rem := (specBytes masked).foldl (fun r b => crcStepSpec^[8] (r ^^^ b)) 0
  (rem >>> 12) &&& 0x0F

/-- Spec §4.2: the ideal fixed-point pipeline in exact integer arithmetic
(truncating division, no wraparound anywhere). -/
def specConvert (C : ℕ → ℕ) (d1 d2 : ℕ) : ConvOut :=
  let dT : ℤ := (d2 : ℤ) - (C 5 : ℤ) * 256
  let TEMP : ℤ := 2000 + (dT * (C 6 : ℤ)).tdiv 8388608
  let T2 : ℤ := if TEMP < 2000 then (3 * (dT * dT)).tdiv 8589934592 else 0
  let OFF2 : ℤ :=
    if TEMP < 2000 then (3 * ((TEMP - 2000) * (TEMP - 2000))).tdiv 8 else 0
  let SENS2 : ℤ :=
    if TEMP < 2000 then (7 * ((TEMP - 2000) * (TEMP - 2000))).tdiv 8 else 0
  let OFFSET : ℤ := (C 2 : ℤ) * 262144 + ((C 4 : ℤ) * dT).tdiv 32
  let SENS : ℤ := (C 1 : ℤ) * 131072 + ((C 3 : ℤ) * dT).tdiv 128
  let TEMPc : ℤ := TEMP - T2
  let OFFSETc : ℤ := OFFSET - OFF2
  let SENSc : ℤ := SENS - SENS2
  let pressureInt : ℤ := (((d1 : ℤ) * SENSc).tdiv 2097152 - OFFSETc).tdiv 32768
  { dT := dT, TEMP := TEMPc, varT2 := T2, OFF2 := OFF2, Sens2 := SENS2,
    Offset := OFFSETc, Sensitivity := SENSc, mbarInt := pressureInt,
    mbar := (pressureInt : ℚ) / 100, tempC := (TEMPc : ℚ) / 100 }

/-- The first-order `dT` of spec step 1 (exact arithmetic). -/
def dT1st (C : ℕ → ℕ) (d2 : ℕ) : ℤ := (d2 : ℤ) - (C 5 : ℤ) * 256

/-- The first-order `TEMP` of spec step 2 (exact arithmetic): the quantity
the second-order branch tests against 2000. -/
def TEMP1st (C : ℕ → ℕ) (d2 : ℕ) : ℤ :=
  2000 + (dT1st C d2 * (C 6 : ℤ)).tdiv 8388608

/-- The exact value of the code's `varT2` (this term never wraps for in-range
inputs, so it needs no residual truncation). -/
def varT2val (C : ℕ → ℕ) (d2 : ℕ) : ℤ :=
  if TEMP1st C d2 < 2000 then
    (3 * (dT1st C d2 * dT1st C d2)).tdiv 8589934592
  else 0

/-- The value of the code's `OFF2`, with the residual 32-bit truncation of
the `int`-arithmetic squaring left explicit. -/
def OFF2code (C : ℕ → ℕ) (d2 : ℕ) : ℤ :=
  if TEMP1st C d2 < 2000 then
    (wrap32 (3 * wrap32 ((TEMP1st C d2 - 2000) * (TEMP1st C d2 - 2000)))).tdiv 8
  else 0

/-- The value of the code's `Sens2`, with the residual 32-bit truncation. -/
def Sens2code (C : ℕ → ℕ) (d2 : ℕ) : ℤ :=
  if TEMP1st C d2 < 2000 then
    (wrap32 (7 * wrap32 ((TEMP1st C d2 - 2000) * (TEMP1st C d2 - 2000)))).tdiv 8
  else 0

/-- First-order offset, spec step 4 (exact arithmetic). -/
def Offset1st (C : ℕ → ℕ) (d2 : ℕ) : ℤ :=
  (C 2 : ℤ) * 262144 + ((C 4 : ℤ) * dT1st C d2).tdiv 32

/-- First-order sensitivity, spec step 4 (exact arithmetic). -/
def Sens1st (C : ℕ → ℕ) (d2 : ℕ) : ℤ :=
  (C 1 : ℤ) * 131072 + ((C 3 : ℤ) * dT1st C d2).tdiv 128

/-- Build a coefficient array from a list (indices past the end read 0);
used for concrete instances only. -/
def coeffsOfList (l : List ℕ) : ℕ → ℕ := fun i => l.getD i 0

/-! ## Bitwise helper lemmas -/

theorem xor_shiftLeft_distrib (a b n : ℕ) :
    (a ^^^ b) <<< n = a <<< n ^^^ b <<< n := by
  apply Nat.eq_of_testBit_eq
  intro i
  simp only [Nat.testBit_shiftLeft, Nat.testBit_xor]
  rw [Bool.and_xor_distrib_left]

theorem xor_shiftRight_distrib (a b n : ℕ) :
    (a ^^^ b) >>> n = a >>> n ^^^ b >>> n := by
  apply Nat.eq_of_testBit_eq
  intro i
  simp

theorem and_shiftRight_distrib (a b n : ℕ) :
    (a &&& b) >>> n = a >>> n &&& b >>> n := by
  apply Nat.eq_of_testBit_eq
  intro i
  simp

theorem xor_mod_two_pow (a b n : ℕ) :
    (a ^^^ b) % 2 ^ n = a % 2 ^ n ^^^ b % 2 ^ n := by
  apply Nat.eq_of_testBit_eq
  intro i
  simp only [Nat.testBit_mod_two_pow, Nat.testBit_xor]
  rw [Bool.and_xor_distrib_left]

theorem xor_left_comm (x y z : ℕ) : x ^^^ (y ^^^ z) = y ^^^ (x ^^^ z) := by
  rw [← Nat.xor_assoc, Nat.xor_comm x y, Nat.xor_assoc]

theorem and_two_pow_15 (r : ℕ) :
    r &&& 32768 = if r.testBit 15 then 32768 else 0 := by
  have h15 : (32768 : ℕ) = 2 ^ 15 := by norm_num
  apply Nat.eq_of_testBit_eq
  intro i
  by_cases hi : i = 15
  · subst hi
    cases h : r.testBit 15 <;> simp [h15, h, Nat.testBit_two_pow]
  · have ht : Nat.testBit 32768 i = false := by
      rw [h15, Nat.testBit_two_pow]
      simp [Ne.symm hi]
    cases h : r.testBit 15 <;> simp [ht, h]

theorem crcStep_hi (r : ℕ) :
    crcStep r =
      if r.testBit 15 then ((r <<< 1) ^^^ 0x3000) % 65536
      else (r <<< 1) % 65536 := by
  cases h : r.testBit 15 <;> simp [crcStep, and_two_pow_15, h]

theorem crcStep_norm (r : ℕ) :
    crcStep r = ((r <<< 1) % 65536) ^^^ (if r.testBit 15 then 0x3000 else 0) := by
  rw [crcStep_hi]
  cases h : r.testBit 15
  · simp
  · have h65536 : (65536 : ℕ) = 2 ^ 16 := by norm_num
    simp only [if_pos rfl]
    rw [h65536, xor_mod_two_pow]
    norm_num

theorem crcStep_xor (a b : ℕ) :
    crcStep (a ^^^ b) = crcStep a ^^^ crcStep b := by
  have h65536 : (65536 : ℕ) = 2 ^ 16 := by norm_num
  rw [crcStep_norm, crcStep_norm, crcStep_norm, Nat.testBit_xor,
    xor_shiftLeft_distrib, h65536, xor_mod_two_pow]
  cases ha : a.testBit 15 <;> cases hb : b.testBit 15 <;>
    simp [Nat.xor_assoc, Nat.xor_comm, xor_left_comm]
  rw [← Nat.xor_assoc, Nat.xor_self, Nat.zero_xor]

theorem crcStep_iterate_xor (n a b : ℕ) :
    crcStep^[n] (a ^^^ b) = crcStep^[n] a ^^^ crcStep^[n] b := by
  induction n with
  | zero => simp
  | succ k ih =>
      rw [Function.iterate_succ_apply', Function.iterate_succ_apply',
        Function.iterate_succ_apply', ih, crcStep_xor]

theorem crcStep_zero : crcStep 0 = 0 := rfl

theorem crcStep_iterate_zero (n : ℕ) : crcStep^[n] 0 = 0 := by
  induction n with
  | zero => rfl
  | succ k ih => rw [Function.iterate_succ_apply', ih, crcStep_zero]

theorem crcRound_xor_right (r b d : ℕ) :
    crcRound r (b ^^^ d) = crcRound r b ^^^ crcStep^[8] d := by
  unfold crcRound
  rw [show r ^^^ (b ^^^ d) = (r ^^^ b) ^^^ d by
    rw [Nat.xor_assoc]]
  exact crcStep_iterate_xor 8 _ _

theorem crcRun_xor_inject (bs : List ℕ) :
    ∀ r d : ℕ, crcRun (r ^^^ d) bs = crcRun r bs ^^^ crcStep^[8 * bs.length] d := by
  induction bs with
  | nil => intro r d; simp [crcRun]
  | cons b t ih =>
      intro r d
      show crcRun (crcRound (r ^^^ d) b) t =
        crcRun (crcRound r b) t ^^^ crcStep^[8 * (b :: t).length] d
      have h1 : crcRound (r ^^^ d) b = crcRound r b ^^^ crcStep^[8] d := by
        unfold crcRound
        rw [show (r ^^^ d) ^^^ b = (r ^^^ b) ^^^ d by
          rw [Nat.xor_assoc, Nat.xor_assoc, Nat.xor_comm d b]]
        exact crcStep_iterate_xor 8 _ _
      rw [h1, ih, ← Function.iterate_add_apply]
      congr 1

theorem crcRun_set (bs : List ℕ) :
    ∀ (k r d : ℕ), k < bs.length →
      crcRun r (bs.set k (bs.getD k 0 ^^^ d)) =
        crcRun r bs ^^^ crcStep^[8 * (bs.length - k)] d := by
  induction bs with
  | nil => intro k r d hk; simp at hk
  | cons b t ih =>
      intro k r d hk
      match k with
      | 0 =>
          show crcRun (crcRound r (b ^^^ d)) t =
            crcRun (crcRound r b) t ^^^ crcStep^[8 * ((b :: t).length - 0)] d
          rw [crcRound_xor_right, crcRun_xor_inject, ← Function.iterate_add_apply]
          congr 1
      | k + 1 =>
          show crcRun (crcRound r b) (t.set k (t.getD k 0 ^^^ d)) =
            crcRun (crcRound r b) t ^^^ crcStep^[8 * ((b :: t).length - (k + 1))] d
          rw [ih k _ d (by simpa using hk)]
          congr 2
          simp

theorem shiftRight_one_eq_div_two (n : ℕ) : n >>> 1 = n / 2 := by
  rw [Nat.shiftRight_eq_div_pow]

theorem xor_ne_self_of_ne_zero {x d : ℕ} (hd : d ≠ 0) : x ^^^ d ≠ x := by
  intro h
  have h2 : x ^^^ (x ^^^ d) = x ^^^ x := by rw [h]
  rw [← Nat.xor_assoc, Nat.xor_self, Nat.zero_xor] at h2
  exact hd h2

theorem byteList_length (g : ℕ → ℕ) : (byteList g).length = 16 := by
  simp [byteList]

theorem byteList_getElem (g : ℕ → ℕ) (n : ℕ) (h : n < (byteList g).length) :
    (byteList g)[n] = byteAt g n := by
  simp [byteList]

theorem byteList_getD (g : ℕ → ℕ) (n : ℕ) (h : n < 16) :
    (byteList g).getD n 0 = byteAt g n := by
  simp [byteList, List.getElem?_map, List.getElem?_range, h]

theorem crc16_eq_crcRun (p : ℕ → ℕ) : crc16 p = crcRun 0 (byteList p) := by
  unfold crc16 crcRun byteList
  rw [List.foldl_map]

theorem byteList_update (g : ℕ → ℕ) (w v : ℕ) :
    byteList (Function.update g w v) =
      ((byteList g).set (2 * w) (v >>> 8)).set (2 * w + 1) (v &&& 255) := by
  apply List.ext_getElem
  · simp [byteList]
  intro n h1 h2
  have hn : n < 16 := by simpa [byteList] using h1
  rw [List.getElem_set, List.getElem_set, byteList_getElem]
  by_cases hodd : n % 2 = 1
  · by_cases heq : n / 2 = w
    · have he1 : 2 * w + 1 = n := by omega
      have hnw : n >>> 1 = w := by rw [shiftRight_one_eq_div_two]; omega
      simp only [byteAt, if_pos hodd, if_pos he1]
      rw [hnw, Function.update_same]
    · have hne1 : ¬(2 * w + 1 = n) := by omega
      have hne2 : ¬(2 * w = n) := by omega
      have hnw : n >>> 1 ≠ w := by rw [shiftRight_one_eq_div_two]; omega
      simp [byteAt, hodd, hne1, hne2, Function.update_noteq hnw,
        byteList_getElem]
  · by_cases heq : n / 2 = w
    · have he2 : 2 * w = n := by omega
      have hne1 : ¬(2 * w + 1 = n) := by omega
      have hnw : n >>> 1 = w := by rw [shiftRight_one_eq_div_two]; omega
      simp only [byteAt, if_neg hodd, if_neg hne1, if_pos he2]
      rw [hnw, Function.update_same]
    · have hne1 : ¬(2 * w + 1 = n) := by omega
      have hne2 : ¬(2 * w = n) := by omega
      have hnw : n >>> 1 ≠ w := by rw [shiftRight_one_eq_div_two]; omega
      simp [byteAt, hodd, hne1, hne2, Function.update_noteq hnw,
        byteList_getElem]

theorem crc4_formula (f : ℕ → ℕ) :
    crc4 f =
      0x000F &&&
        (crcRun 0 (byteList (Function.update f 7 (0xFF00 &&& f 7))) >>> 12) := by
  unfold crc4 MS_5803_CRC
  simp [crc16_eq_crcRun]

/-- The difference a single flipped bit (bit `j` of word `w < 7`) leaves in
the final CRC nibble, for each of the 112 positions: never zero. -/
theorem crc_delta_nonzero : ∀ w : Fin 7, ∀ j : Fin 16,
    0x000F &&&
      ((crcStep^[8 * (16 - 2 * (w : ℕ))] (2 ^ (j : ℕ) >>> 8) ^^^
        crcStep^[8 * (15 - 2 * (w : ℕ))] (2 ^ (j : ℕ) &&& 255)) >>> 12) ≠ 0 := by
  decide



/-! ## Wrap-elimination lemmas for the conversion pipeline -/

theorem wrap32_eq_self (x : ℤ) (h1 : -2147483648 ≤ x) (h2 : x < 2147483648) :
    wrap32 x = x := by
  unfold wrap32
  omega

theorem wrap64_eq_self (x : ℤ) (h1 : -9223372036854775808 ≤ x)
    (h2 : x < 9223372036854775808) : wrap64 x = x := by
  unfold wrap64
  omega

theorem wrap32_bounds (x : ℤ) :
    -2147483648 ≤ wrap32 x ∧ wrap32 x < 2147483648 := by
  unfold wrap32
  omega

theorem dT1st_bounds (C : ℕ → ℕ) (d2 : ℕ) (hC : ∀ i, i < 8 → C i < 65536)
    (hd2 : d2 < 16777216) :
    -16776960 ≤ dT1st C d2 ∧ dT1st C d2 ≤ 16777215 := by
  have h5 := hC 5 (by omega)
  unfold dT1st
  omega

theorem wrapdT_eq (C : ℕ → ℕ) (d2 : ℕ) (hC : ∀ i, i < 8 → C i < 65536)
    (hd2 : d2 < 16777216) :
    wrap32 (wrap32 (d2 : ℤ) - wrap32 ((C 5 : ℤ) * 256)) = dT1st C d2 := by
  have h5 := hC 5 (by omega)
  unfold wrap32 dT1st
  omega

theorem TEMP1st_tdiv_natAbs (C : ℕ → ℕ) (d2 : ℕ)
    (hC : ∀ i, i < 8 → C i < 65536) (hd2 : d2 < 16777216) :
    ((dT1st C d2 * (C 6 : ℤ)).tdiv 8388608).natAbs ≤ 131071 := by
  have h6 := hC 6 (by omega)
  have h1 := dT1st_bounds C d2 hC hd2
  have h2 : (dT1st C d2 * (C 6 : ℤ)).natAbs ≤ 16777215 * 65535 := by
    rw [Int.natAbs_mul, Int.natAbs_ofNat]
    exact Nat.mul_le_mul (by omega) (by omega)
  have hq : ((dT1st C d2 * (C 6 : ℤ)).tdiv 8388608).natAbs =
      (dT1st C d2 * (C 6 : ℤ)).natAbs / 8388608 := by
    rw [Int.natAbs_tdiv]
    rfl
  omega

theorem TEMP1st_bounds (C : ℕ → ℕ) (d2 : ℕ) (hC : ∀ i, i < 8 → C i < 65536)
    (hd2 : d2 < 16777216) :
    -129072 ≤ TEMP1st C d2 ∧ TEMP1st C d2 ≤ 133072 := by
  have h := TEMP1st_tdiv_natAbs C d2 hC hd2
  unfold TEMP1st
  omega

theorem wrapTEMP_eq (C : ℕ → ℕ) (d2 : ℕ) (hC : ∀ i, i < 8 → C i < 65536)
    (hd2 : d2 < 16777216) :
    wrap32 (2000 + (wrap64 (dT1st C d2 * (C 6 : ℤ))).tdiv 8388608) =
      TEMP1st C d2 := by
  have h6 := hC 6 (by omega)
  have h1 := dT1st_bounds C d2 hC hd2
  have h2 : (dT1st C d2 * (C 6 : ℤ)).natAbs ≤ 16777215 * 65535 := by
    rw [Int.natAbs_mul, Int.natAbs_ofNat]
    exact Nat.mul_le_mul (by omega) (by omega)
  rw [wrap64_eq_self _ (by omega) (by omega)]
  have h3 := TEMP1st_tdiv_natAbs C d2 hC hd2
  unfold wrap32 TEMP1st
  omega

theorem varT2code_eq (C : ℕ → ℕ) (d2 : ℕ) (hC : ∀ i, i < 8 → C i < 65536)
    (hd2 : d2 < 16777216) :
    (if TEMP1st C d2 < 2000 then
      wrap32 (wrap64 ((wrap64 (3 * (dT1st C d2 * dT1st C d2)) %
        18446744073709551616).tdiv 8589934592))
     else 0) = varT2val C d2 := by
  have h1 := dT1st_bounds C d2 hC hd2
  have hxx : (dT1st C d2 * dT1st C d2).natAbs ≤ 16777215 * 16777215 := by
    rw [Int.natAbs_mul]
    exact Nat.mul_le_mul (by omega) (by omega)
  have hpos : 0 ≤ dT1st C d2 * dT1st C d2 := mul_self_nonneg _
  unfold varT2val
  by_cases hlt : TEMP1st C d2 < 2000
  · simp only [if_pos hlt]
    rw [wrap64_eq_self (3 * (dT1st C d2 * dT1st C d2)) (by omega) (by omega)]
    rw [show 3 * (dT1st C d2 * dT1st C d2) % 18446744073709551616 =
      3 * (dT1st C d2 * dT1st C d2) from by omega]
    have hq : ((3 * (dT1st C d2 * dT1st C d2)).tdiv 8589934592).natAbs =
        (3 * (dT1st C d2 * dT1st C d2)).natAbs / 8589934592 := by
      rw [Int.natAbs_tdiv]
      rfl
    rw [wrap64_eq_self ((3 * (dT1st C d2 * dT1st C d2)).tdiv 8589934592)
        (by omega) (by omega),
      wrap32_eq_self _ (by omega) (by omega)]
  · simp only [if_neg hlt]

theorem varT2val_natAbs (C : ℕ → ℕ) (d2 : ℕ) (hC : ∀ i, i < 8 → C i < 65536)
    (hd2 : d2 < 16777216) : (varT2val C d2).natAbs ≤ 98304 := by
  have h1 := dT1st_bounds C d2 hC hd2
  have hxx : (dT1st C d2 * dT1st C d2).natAbs ≤ 16777215 * 16777215 := by
    rw [Int.natAbs_mul]
    exact Nat.mul_le_mul (by omega) (by omega)
  have hpos : 0 ≤ dT1st C d2 * dT1st C d2 := mul_self_nonneg _
  have hq : ((3 * (dT1st C d2 * dT1st C d2)).tdiv 8589934592).natAbs =
      (3 * (dT1st C d2 * dT1st C d2)).natAbs / 8589934592 := by
    rw [Int.natAbs_tdiv]
    rfl
  unfold varT2val
  split
  · omega
  · simp

theorem OFF2code_natAbs (C : ℕ → ℕ) (d2 : ℕ) :
    (OFF2code C d2).natAbs ≤ 268435456 := by
  unfold OFF2code
  split
  · have hb := wrap32_bounds
      (3 * wrap32 ((TEMP1st C d2 - 2000) * (TEMP1st C d2 - 2000)))
    have hq : ((wrap32 (3 * wrap32 ((TEMP1st C d2 - 2000) *
        (TEMP1st C d2 - 2000)))).tdiv 8).natAbs =
        (wrap32 (3 * wrap32 ((TEMP1st C d2 - 2000) *
          (TEMP1st C d2 - 2000)))).natAbs / 8 := by
      rw [Int.natAbs_tdiv]
      rfl
    omega
  · simp

theorem Sens2code_natAbs (C : ℕ → ℕ) (d2 : ℕ) :
    (Sens2code C d2).natAbs ≤ 268435456 := by
  unfold Sens2code
  split
  · have hb := wrap32_bounds
      (7 * wrap32 ((TEMP1st C d2 - 2000) * (TEMP1st C d2 - 2000)))
    have hq : ((wrap32 (7 * wrap32 ((TEMP1st C d2 - 2000) *
        (TEMP1st C d2 - 2000)))).tdiv 8).natAbs =
        (wrap32 (7 * wrap32 ((TEMP1st C d2 - 2000) *
          (TEMP1st C d2 - 2000)))).natAbs / 8 := by
      rw [Int.natAbs_tdiv]
      rfl
    omega
  · simp

theorem Offset1st_natAbs (C : ℕ → ℕ) (d2 : ℕ) (hC : ∀ i, i < 8 → C i < 65536)
    (hd2 : d2 < 16777216) : (Offset1st C d2).natAbs ≤ 51538821121 := by
  have h2 := hC 2 (by omega)
  have h4 := hC 4 (by omega)
  have hdT := dT1st_bounds C d2 hC hd2
  have hc4x : ((C 4 : ℤ) * dT1st C d2).natAbs ≤ 65535 * 16777215 := by
    rw [Int.natAbs_mul, Int.natAbs_ofNat]
    exact Nat.mul_le_mul (by omega) (by omega)
  have hq : (((C 4 : ℤ) * dT1st C d2).tdiv 32).natAbs =
      ((C 4 : ℤ) * dT1st C d2).natAbs / 32 := by
    rw [Int.natAbs_tdiv]
    rfl
  unfold Offset1st
  omega

theorem Sens1st_natAbs (C : ℕ → ℕ) (d2 : ℕ) (hC : ∀ i, i < 8 → C i < 65536)
    (hd2 : d2 < 16777216) : (Sens1st C d2).natAbs ≤ 17179607041 := by
  have h1 := hC 1 (by omega)
  have h3 := hC 3 (by omega)
  have hdT := dT1st_bounds C d2 hC hd2
  have hc3x : ((C 3 : ℤ) * dT1st C d2).natAbs ≤ 65535 * 16777215 := by
    rw [Int.natAbs_mul, Int.natAbs_ofNat]
    exact Nat.mul_le_mul (by omega) (by omega)
  have hq : (((C 3 : ℤ) * dT1st C d2).tdiv 128).natAbs =
      ((C 3 : ℤ) * dT1st C d2).natAbs / 128 := by
    rw [Int.natAbs_tdiv]
    rfl
  unfold Sens1st
  omega


/-! ## Field-by-field closed form of `convertRaw` -/

theorem convertRaw_dT_eq (C : ℕ → ℕ) (d1 d2 : ℕ)
    (hC : ∀ i, i < 8 → C i < 65536) (hd2 : d2 < 16777216) :
    (convertRaw C d1 d2).dT = dT1st C d2 := by
  simp only [convertRaw]
  exact wrapdT_eq C d2 hC hd2

theorem convertRaw_varT2_eq (C : ℕ → ℕ) (d1 d2 : ℕ)
    (hC : ∀ i, i < 8 → C i < 65536) (hd2 : d2 < 16777216) :
    (convertRaw C d1 d2).varT2 = varT2val C d2 := by
  simp only [convertRaw]
  rw [wrapdT_eq C d2 hC hd2, wrapTEMP_eq C d2 hC hd2, varT2code_eq C d2 hC hd2]

theorem convertRaw_OFF2_eq (C : ℕ → ℕ) (d1 d2 : ℕ)
    (hC : ∀ i, i < 8 → C i < 65536) (hd2 : d2 < 16777216) :
    (convertRaw C d1 d2).OFF2 = OFF2code C d2 := by
  have hT := TEMP1st_bounds C d2 hC hd2
  simp only [convertRaw]
  rw [wrapdT_eq C d2 hC hd2, wrapTEMP_eq C d2 hC hd2,
    wrap32_eq_self (TEMP1st C d2 - 2000) (by omega) (by omega)]
  rfl

theorem convertRaw_Sens2_eq (C : ℕ → ℕ) (d1 d2 : ℕ)
    (hC : ∀ i, i < 8 → C i < 65536) (hd2 : d2 < 16777216) :
    (convertRaw C d1 d2).Sens2 = Sens2code C d2 := by
  have hT := TEMP1st_bounds C d2 hC hd2
  simp only [convertRaw]
  rw [wrapdT_eq C d2 hC hd2, wrapTEMP_eq C d2 hC hd2,
    wrap32_eq_self (TEMP1st C d2 - 2000) (by omega) (by omega)]
  rfl

theorem convertRaw_TEMP_eq (C : ℕ → ℕ) (d1 d2 : ℕ)
    (hC : ∀ i, i < 8 → C i < 65536) (hd2 : d2 < 16777216) :
    (convertRaw C d1 d2).TEMP = TEMP1st C d2 - varT2val C d2 := by
  have hT := TEMP1st_bounds C d2 hC hd2
  have hv := varT2val_natAbs C d2 hC hd2
  simp only [convertRaw]
  rw [wrapdT_eq C d2 hC hd2, wrapTEMP_eq C d2 hC hd2, varT2code_eq C d2 hC hd2]
  exact wrap32_eq_self _ (by omega) (by omega)

theorem convertRaw_Offset_eq (C : ℕ → ℕ) (d1 d2 : ℕ)
    (hC : ∀ i, i < 8 → C i < 65536) (hd2 : d2 < 16777216) :
    (convertRaw C d1 d2).Offset = Offset1st C d2 - OFF2code C d2 := by
  have h2 := hC 2 (by omega)
  have h4 := hC 4 (by omega)
  have hT := TEMP1st_bounds C d2 hC hd2
  have hdT := dT1st_bounds C d2 hC hd2
  have hc4x : ((C 4 : ℤ) * dT1st C d2).natAbs ≤ 65535 * 16777215 := by
    rw [Int.natAbs_mul, Int.natAbs_ofNat]
    exact Nat.mul_le_mul (by omega) (by omega)
  have hq : (((C 4 : ℤ) * dT1st C d2).tdiv 32).natAbs =
      ((C 4 : ℤ) * dT1st C d2).natAbs / 32 := by
    rw [Int.natAbs_tdiv]
    rfl
  have ho := OFF2code_natAbs C d2
  simp only [convertRaw]
  rw [wrapdT_eq C d2 hC hd2, wrapTEMP_eq C d2 hC hd2,
    wrap32_eq_self (TEMP1st C d2 - 2000) (by omega) (by omega)]
  rw [wrap64_eq_self ((C 2 : ℤ) * 262144) (by omega) (by omega),
    wrap64_eq_self ((C 4 : ℤ) * dT1st C d2) (by omega) (by omega),
    wrap64_eq_self ((C 2 : ℤ) * 262144 + ((C 4 : ℤ) * dT1st C d2).tdiv 32)
      (by omega) (by omega)]
  rw [show (if TEMP1st C d2 < 2000 then
      (wrap32 (3 * wrap32 ((TEMP1st C d2 - 2000) * (TEMP1st C d2 - 2000)))).tdiv 8
    else 0) = OFF2code C d2 from rfl]
  exact wrap64_eq_self _ (by omega) (by omega)

theorem convertRaw_Sensitivity_eq (C : ℕ → ℕ) (d1 d2 : ℕ)
    (hC : ∀ i, i < 8 → C i < 65536) (hd2 : d2 < 16777216) :
    (convertRaw C d1 d2).Sensitivity = Sens1st C d2 - Sens2code C d2 := by
  have h1 := hC 1 (by omega)
  have h3 := hC 3 (by omega)
  have hT := TEMP1st_bounds C d2 hC hd2
  have hdT := dT1st_bounds C d2 hC hd2
  have hc3x : ((C 3 : ℤ) * dT1st C d2).natAbs ≤ 65535 * 16777215 := by
    rw [Int.natAbs_mul, Int.natAbs_ofNat]
    exact Nat.mul_le_mul (by omega) (by omega)
  have hq : (((C 3 : ℤ) * dT1st C d2).tdiv 128).natAbs =
      ((C 3 : ℤ) * dT1st C d2).natAbs / 128 := by
    rw [Int.natAbs_tdiv]
    rfl
  have hs := Sens2code_natAbs C d2
  simp only [convertRaw]
  rw [wrapdT_eq C d2 hC hd2, wrapTEMP_eq C d2 hC hd2,
    wrap32_eq_self (TEMP1st C d2 - 2000) (by omega) (by omega)]
  rw [wrap64_eq_self ((C 1 : ℤ) * 131072) (by omega) (by omega),
    wrap64_eq_self ((C 3 : ℤ) * dT1st C d2) (by omega) (by omega),
    wrap64_eq_self ((C 1 : ℤ) * 131072 + ((C 3 : ℤ) * dT1st C d2).tdiv 128)
      (by omega) (by omega)]
  rw [show (if TEMP1st C d2 < 2000 then
      (wrap32 (7 * wrap32 ((TEMP1st C d2 - 2000) * (TEMP1st C d2 - 2000)))).tdiv 8
    else 0) = Sens2code C d2 from rfl]
  exact wrap64_eq_self _ (by omega) (by omega)

theorem convertRaw_mbarInt_eq (C : ℕ → ℕ) (d1 d2 : ℕ)
    (hC : ∀ i, i < 8 → C i < 65536) (hd1 : d1 < 16777216)
    (hd2 : d2 < 16777216) :
    (convertRaw C d1 d2).mbarInt =
      (((d1 : ℤ) * (Sens1st C d2 - Sens2code C d2)).tdiv 2097152 -
        (Offset1st C d2 - OFF2code C d2)).tdiv 32768 := by
  have hC2 := hC 2 (by omega)
  have hC4 := hC 4 (by omega)
  have hT := TEMP1st_bounds C d2 hC hd2
  have hdT := dT1st_bounds C d2 hC hd2
  have hS1 := Sens1st_natAbs C d2 hC hd2
  have hS2 := Sens2code_natAbs C d2
  have hO1 := Offset1st_natAbs C d2 hC hd2
  have hO2 := OFF2code_natAbs C d2
  have hSENS : (Sens1st C d2 - Sens2code C d2).natAbs ≤ 17500000000 := by
    omega
  have hprod : ((d1 : ℤ) * (Sens1st C d2 - Sens2code C d2)).natAbs ≤
      16777215 * 17500000000 := by
    rw [Int.natAbs_mul, Int.natAbs_ofNat]
    exact Nat.mul_le_mul (by omega) hSENS
  have hq1 : (((d1 : ℤ) * (Sens1st C d2 - Sens2code C d2)).tdiv 2097152).natAbs =
      ((d1 : ℤ) * (Sens1st C d2 - Sens2code C d2)).natAbs / 2097152 := by
    rw [Int.natAbs_tdiv]
    rfl
  have hq2 : ((((d1 : ℤ) * (Sens1st C d2 - Sens2code C d2)).tdiv 2097152 -
      (Offset1st C d2 - OFF2code C d2)).tdiv 32768).natAbs =
      (((d1 : ℤ) * (Sens1st C d2 - Sens2code C d2)).tdiv 2097152 -
        (Offset1st C d2 - OFF2code C d2)).natAbs / 32768 := by
    rw [Int.natAbs_tdiv]
    rfl
  have hOff := convertRaw_Offset_eq C d1 d2 hC hd2
  have hSen := convertRaw_Sensitivity_eq C d1 d2 hC hd2
  have e : (convertRaw C d1 d2).mbarInt =
      wrap32 ((wrap64 ((wrap64 ((d1 : ℤ) * (convertRaw C d1 d2).Sensitivity)).tdiv
        2097152 - (convertRaw C d1 d2).Offset)).tdiv 32768) := rfl
  rw [e, hOff, hSen]
  rw [wrap64_eq_self ((d1 : ℤ) * (Sens1st C d2 - Sens2code C d2))
      (by omega) (by omega)]
  rw [wrap64_eq_self (((d1 : ℤ) * (Sens1st C d2 - Sens2code C d2)).tdiv 2097152 -
      (Offset1st C d2 - OFF2code C d2)) (by omega) (by omega)]
  exact wrap32_eq_self _ (by omega) (by omega)

theorem convertRaw_mbar_eq (C : ℕ → ℕ) (d1 d2 : ℕ) :
    (convertRaw C d1 d2).mbar = (((convertRaw C d1 d2).mbarInt : ℤ) : ℚ) / 100 :=
  rfl

theorem convertRaw_tempC_eq (C : ℕ → ℕ) (d1 d2 : ℕ) :
    (convertRaw C d1 d2).tempC = (((convertRaw C d1 d2).TEMP : ℤ) : ℚ) / 100 :=
  rfl

/-! ## Claim theorems -/
/-- Claim C2, amended: for 24-bit samples and 16-bit coefficients,
`convertRaw` computes exactly the seven-step fixed-point pipeline of spec
§4.2 (exact truncating integer arithmetic, outputs `pressureInt/100` and
`TEMP/100`) whenever the second-order squaring does not overflow 32-bit
`int` arithmetic — that is, whenever the first-order TEMP is at least 2000,
or `7*(TEMP-2000)^2 < 2^31`.  (Outside that region the squaring wraps and
the pipelines diverge; see the counterexample.) -/
theorem c2_amended_pipeline_exact (C : ℕ → ℕ) (d1 d2 : ℕ)
    (hC : ∀ i, i < 8 → C i < 65536) (hd1 : d1 < 16777216)
    (hd2 : d2 < 16777216)
    (hT : 2000 ≤ TEMP1st C d2 ∨
      7 * ((TEMP1st C d2 - 2000) * (TEMP1st C d2 - 2000)) < 2147483648) :
    convertRaw C d1 d2 = specConvert C d1 d2 := by
  have hTb := TEMP1st_bounds C d2 hC hd2
  have hpos : 0 ≤ (TEMP1st C d2 - 2000) * (TEMP1st C d2 - 2000) :=
    mul_self_nonneg _
  have hOFF2spec : OFF2code C d2 =
      (if TEMP1st C d2 < 2000 then
        (3 * ((TEMP1st C d2 - 2000) * (TEMP1st C d2 - 2000))).tdiv 8
       else 0) := by
    unfold OFF2code
    by_cases hlt : TEMP1st C d2 < 2000
    · simp only [if_pos hlt]
      have h7 := hT.resolve_left (by omega)
      rw [wrap32_eq_self ((TEMP1st C d2 - 2000) * (TEMP1st C d2 - 2000))
          (by omega) (by omega),
        wrap32_eq_self (3 * ((TEMP1st C d2 - 2000) * (TEMP1st C d2 - 2000)))
          (by omega) (by omega)]
    · simp only [if_neg hlt]
  have hSens2spec : Sens2code C d2 =
      (if TEMP1st C d2 < 2000 then
        (7 * ((TEMP1st C d2 - 2000) * (TEMP1st C d2 - 2000))).tdiv 8
       else 0) := by
    unfold Sens2code
    by_cases hlt : TEMP1st C d2 < 2000
    · simp only [if_pos hlt]
      have h7 := hT.resolve_left (by omega)
      rw [wrap32_eq_self ((TEMP1st C d2 - 2000) * (TEMP1st C d2 - 2000))
          (by omega) (by omega),
        wrap32_eq_self (7 * ((TEMP1st C d2 - 2000) * (TEMP1st C d2 - 2000)))
          (by omega) (by omega)]
    · simp only [if_neg hlt]
  apply ConvOut.ext
  · rw [convertRaw_dT_eq C d1 d2 hC hd2]
    rfl
  · rw [convertRaw_TEMP_eq C d1 d2 hC hd2]
    rfl
  · rw [convertRaw_varT2_eq C d1 d2 hC hd2]
    rfl
  · rw [convertRaw_OFF2_eq C d1 d2 hC hd2, hOFF2spec]
    rfl
  · rw [convertRaw_Sens2_eq C d1 d2 hC hd2, hSens2spec]
    rfl
  · rw [convertRaw_Offset_eq C d1 d2 hC hd2, hOFF2spec]
    rfl
  · rw [convertRaw_Sensitivity_eq C d1 d2 hC hd2, hSens2spec]
    rfl
  · rw [convertRaw_mbarInt_eq C d1 d2 hC hd1 hd2, hOFF2spec, hSens2spec]
    rfl
  · rw [convertRaw_mbar_eq, convertRaw_mbarInt_eq C d1 d2 hC hd1 hd2,
      hOFF2spec, hSens2spec]
    rfl
  · rw [convertRaw_tempC_eq, convertRaw_TEMP_eq C d1 d2 hC hd2]
    rfl

/-- Witness for C2 (amended): the spec's illustrative inputs — `convertRaw`
agrees with the spec pipeline there. -/
theorem c2_amended_pipeline_exact_witness :
    convertRaw (coeffsOfList [0, 46372, 43981, 29059, 27842, 31553, 28165, 0])
      4234076 8374211 =
    specConvert (coeffsOfList [0, 46372, 43981, 29059, 27842, 31553, 28165, 0])
      4234076 8374211 :=
  c2_amended_pipeline_exact _ _ _ (by decide) (by decide) (by decide)
    (by decide)

/-- Claim C7, amended: the second-order compensation branches exactly at
first-order TEMP = 2000.  At or above 2000 all three terms are zero.  Below
2000, `T2 = 3*dT*dT/2^33` always holds exactly, while `OFF2` and `SENS2`
equal `3*(TEMP-2000)^2/8` and `7*(TEMP-2000)^2/8` only when the 32-bit
squaring does not overflow (`7*(TEMP-2000)^2 < 2^31`); beyond that the code
wraps the square (see the counterexample). -/
theorem c7_amended_second_order_branch (C : ℕ → ℕ) (d1 d2 : ℕ)
    (hC : ∀ i, i < 8 → C i < 65536) (hd1 : d1 < 16777216)
    (hd2 : d2 < 16777216) :
    (2000 ≤ TEMP1st C d2 →
      (convertRaw C d1 d2).varT2 = 0 ∧ (convertRaw C d1 d2).OFF2 = 0 ∧
        (convertRaw C d1 d2).Sens2 = 0) ∧
    (TEMP1st C d2 < 2000 →
      (convertRaw C d1 d2).varT2 =
        (3 * (dT1st C d2 * dT1st C d2)).tdiv 8589934592 ∧
      (7 * ((TEMP1st C d2 - 2000) * (TEMP1st C d2 - 2000)) < 2147483648 →
        (convertRaw C d1 d2).OFF2 =
          (3 * ((TEMP1st C d2 - 2000) * (TEMP1st C d2 - 2000))).tdiv 8 ∧
        (convertRaw C d1 d2).Sens2 =
          (7 * ((TEMP1st C d2 - 2000) * (TEMP1st C d2 - 2000))).tdiv 8)) := by
  constructor
  · intro hge
    rw [convertRaw_varT2_eq C d1 d2 hC hd2, convertRaw_OFF2_eq C d1 d2 hC hd2,
      convertRaw_Sens2_eq C d1 d2 hC hd2]
    unfold varT2val OFF2code Sens2code
    rw [if_neg (by omega), if_neg (by omega), if_neg (by omega)]
    exact ⟨rfl, rfl, rfl⟩
  · intro hlt
    have hTb := TEMP1st_bounds C d2 hC hd2
    have hpos : 0 ≤ (TEMP1st C d2 - 2000) * (TEMP1st C d2 - 2000) :=
      mul_self_nonneg _
    constructor
    · rw [convertRaw_varT2_eq C d1 d2 hC hd2]
      unfold varT2val
      rw [if_pos hlt]
    · intro h7
      constructor
      · rw [convertRaw_OFF2_eq C d1 d2 hC hd2]
        unfold OFF2code
        rw [if_pos hlt,
          wrap32_eq_self ((TEMP1st C d2 - 2000) * (TEMP1st C d2 - 2000))
            (by omega) (by omega),
          wrap32_eq_self (3 * ((TEMP1st C d2 - 2000) * (TEMP1st C d2 - 2000)))
            (by omega) (by omega)]
      · rw [convertRaw_Sens2_eq C d1 d2 hC hd2]
        unfold Sens2code
        rw [if_pos hlt,
          wrap32_eq_self ((TEMP1st C d2 - 2000) * (TEMP1st C d2 - 2000))
            (by omega) (by omega),
          wrap32_eq_self (7 * ((TEMP1st C d2 - 2000) * (TEMP1st C d2 - 2000)))
            (by omega) (by omega)]

/-- Witness for C7 (amended): at the all-zero coefficient array with
`d2 = 0` the first-order TEMP is exactly 2000, so the else-branch applies
and the stored second-order terms are zero. -/
theorem c7_amended_second_order_branch_witness :
    (convertRaw (coeffsOfList []) 0 0).varT2 = 0 ∧
    (convertRaw (coeffsOfList []) 0 0).OFF2 = 0 ∧
    (convertRaw (coeffsOfList []) 0 0).Sens2 = 0 :=
  (c7_amended_second_order_branch (coeffsOfList []) 0 0 (by decide) (by decide)
    (by decide)).1 (by decide)




/-- Flipping one bit of one word changes exactly the two corresponding bytes
of the byte list, each by an XOR difference. -/
theorem byteList_flip (g : ℕ → ℕ) (w j : ℕ) :
    byteList (Function.update g w (g w ^^^ 2 ^ j)) =
      ((byteList g).set (2 * w) ((g w >>> 8) ^^^ (2 ^ j >>> 8))).set (2 * w + 1)
        ((g w &&& 255) ^^^ (2 ^ j &&& 255)) := by
  rw [byteList_update, xor_shiftRight_distrib, Nat.and_xor_distrib_right]

/-- Claim C8 (CRC single-bit sensitivity): for every coefficient array and
every bit position inside words 0..6, flipping that one bit changes the
computed CRC. -/
theorem c8_crc_single_bit_sensitivity (f : ℕ → ℕ) (w j : ℕ)
    (hw : w < 7) (hj : j < 16) (hb : ∀ i, i < 8 → f i < 65536) :
    crc4 (Function.update f w (f w ^^^ 2 ^ j)) ≠ crc4 f := by
  have hw7 : w ≠ 7 := by omega
  rw [crc4_formula, crc4_formula f]
  have hup7 : Function.update f w (f w ^^^ 2 ^ j) 7 = f 7 :=
    Function.update_noteq (by omega) _ _
  have hmask :
      Function.update (Function.update f w (f w ^^^ 2 ^ j)) 7
          (0xFF00 &&& Function.update f w (f w ^^^ 2 ^ j) 7) =
        Function.update (Function.update f 7 (0xFF00 &&& f 7)) w
          (Function.update f 7 (0xFF00 &&& f 7) w ^^^ 2 ^ j) := by
    rw [hup7, Function.update_comm hw7,
      Function.update_noteq hw7 (0xFF00 &&& f 7) f]
  rw [hmask]
  set g := Function.update f 7 (0xFF00 &&& f 7) with hg
  rw [byteList_flip]
  have hbyte_hi : g w >>> 8 = (byteList g).getD (2 * w) 0 := by
    rw [byteList_getD g (2 * w) (by omega)]
    unfold byteAt
    rw [if_neg (by omega : ¬(2 * w) % 2 = 1), shiftRight_one_eq_div_two,
      show 2 * w / 2 = w from by omega]
  have hbyte_lo : g w &&& 255 = (byteList g).getD (2 * w + 1) 0 := by
    rw [byteList_getD g (2 * w + 1) (by omega)]
    unfold byteAt
    rw [if_pos (by omega : (2 * w + 1) % 2 = 1), shiftRight_one_eq_div_two,
      show (2 * w + 1) / 2 = w from by omega]
  rw [hbyte_hi, hbyte_lo]
  have hgd : (((byteList g).set (2 * w)
      ((byteList g).getD (2 * w) 0 ^^^ 2 ^ j >>> 8))).getD (2 * w + 1) 0 =
      (byteList g).getD (2 * w + 1) 0 := by
    simp only [List.getD_eq_getElem?_getD]
    rw [List.getElem?_set_ne (by omega)]
  rw [← hgd]
  rw [crcRun_set _ (2 * w + 1) 0 (2 ^ j &&& 255)
      (by simp [byteList_length]; omega),
    crcRun_set _ (2 * w) 0 (2 ^ j >>> 8) (by rw [byteList_length]; omega)]
  simp only [List.length_set, byteList_length]
  rw [show 16 - (2 * w + 1) = 15 - 2 * w from by omega]
  rw [Nat.xor_assoc, xor_shiftRight_distrib, Nat.and_xor_distrib_left]
  exact xor_ne_self_of_ne_zero (by simpa using crc_delta_nonzero ⟨w, hw⟩ ⟨j, hj⟩)

/-- Witness for C8: flipping bit 0 of word 0 of the all-zero array changes
the CRC. -/
theorem c8_crc_single_bit_sensitivity_witness :
    crc4 (Function.update (coeffsOfList [0, 0, 0, 0, 0, 0, 0, 0]) 0
      (coeffsOfList [0, 0, 0, 0, 0, 0, 0, 0] 0 ^^^ 2 ^ 0)) ≠
    crc4 (coeffsOfList [0, 0, 0, 0, 0, 0, 0, 0]) :=
  c8_crc_single_bit_sensitivity (coeffsOfList [0, 0, 0, 0, 0, 0, 0, 0]) 0 0
    (by omega) (by omega) (by decide)


theorem and_FF00_and_FF (x : ℕ) : (0xFF00 &&& x) &&& 255 = 0 := by
  rw [Nat.and_comm 0xFF00 x, Nat.and_assoc,
    show (0xFF00 &&& 255 : ℕ) = 0 from by decide, Nat.and_zero]

/-- Claim C9 (CRC field exclusion): two coefficient arrays that agree on
words 0..6 and on the high byte of word 7 have the same CRC (the low byte of
word 7 — the CRC field itself — cannot influence the computation), and there
are two arrays differing only in the high byte of word 7 whose CRCs differ. -/
theorem c9_crc_field_exclusion :
    (∀ f g : ℕ → ℕ, (∀ i, i < 7 → f i = g i) → f 7 >>> 8 = g 7 >>> 8 →
      crc4 f = crc4 g) ∧
    crc4 (coeffsOfList [0, 0, 0, 0, 0, 0, 0, 0]) ≠
      crc4 (coeffsOfList [0, 0, 0, 0, 0, 0, 0, 256]) := by
  constructor
  · intro f g hlow hhigh
    rw [crc4_formula, crc4_formula]
    suffices h : byteList (Function.update f 7 (0xFF00 &&& f 7)) =
        byteList (Function.update g 7 (0xFF00 &&& g 7)) by rw [h]
    unfold byteList
    apply List.map_congr_left
    intro n hn
    have hn16 : n < 16 := List.mem_range.mp hn
    unfold byteAt
    by_cases h7 : n >>> 1 = 7
    · by_cases hodd : n % 2 = 1
      · rw [if_pos hodd, if_pos hodd, h7, Function.update_same,
          Function.update_same, and_FF00_and_FF, and_FF00_and_FF]
      · rw [if_neg hodd, if_neg hodd, h7, Function.update_same,
          Function.update_same, and_shiftRight_distrib,
          and_shiftRight_distrib, hhigh]
    · have hlt : n >>> 1 < 7 := by
        rw [shiftRight_one_eq_div_two] at h7 ⊢
        omega
      by_cases hodd : n % 2 = 1
      · rw [if_pos hodd, if_pos hodd, Function.update_noteq h7,
          Function.update_noteq h7, hlow _ hlt]
      · rw [if_neg hodd, if_neg hodd, Function.update_noteq h7,
          Function.update_noteq h7, hlow _ hlt]
  · decide

/-- Witness for C9: two arrays sharing words 0..6 and the high byte of word
7 (0x1234 vs 0x12B5) — equal CRCs, by the theorem. -/
theorem c9_crc_field_exclusion_witness :
    crc4 (coeffsOfList [1, 2, 3, 4, 5, 6, 7, 4660]) =
      crc4 (coeffsOfList [1, 2, 3, 4, 5, 6, 7, 4789]) :=
  c9_crc_field_exclusion.1 _ _ (by decide) (by decide)


theorem and_255_eq_mod (x : ℕ) : x &&& 255 = x % 256 := by
  have h := Nat.and_pow_two_sub_one_eq_mod x 8
  norm_num at h
  exact h

theorem shiftRight8_eq_div (x : ℕ) : x >>> 8 = x / 256 := by
  rw [Nat.shiftRight_eq_div_pow]

theorem crcStepSpec_eq_crcStep : crcStepSpec = crcStep := by
  funext r
  rw [crcStep_norm]
  unfold crcStepSpec
  cases h : r.testBit 15 <;>
    simp [h, Nat.shiftLeft_eq, Nat.mul_comm]

theorem specBytes_eq_byteList (f : ℕ → ℕ) (hb : ∀ i, i < 8 → f i < 65536) :
    specBytes (Function.update f 7 (f 7 / 256 * 256)) =
      byteList (Function.update f 7 (0xFF00 &&& f 7)) := by
  unfold specBytes byteList
  apply List.map_congr_left
  intro n hn
  have hn16 : n < 16 := List.mem_range.mp hn
  unfold byteAt
  by_cases h7 : n / 2 = 7
  · have h7' : n >>> 1 = 7 := by rw [shiftRight_one_eq_div_two]; omega
    by_cases hodd : n % 2 = 1
    · rw [if_neg (by omega : ¬n % 2 = 0), if_pos hodd, h7, h7',
        Function.update_same, Function.update_same, and_FF00_and_FF,
        Nat.mul_mod_left]
    · rw [if_pos (by omega : n % 2 = 0), if_neg hodd, h7, h7',
        Function.update_same, Function.update_same, and_shiftRight_distrib,
        show (0xFF00 : ℕ) >>> 8 = 255 from rfl,
        Nat.and_comm 255 (f 7 >>> 8), and_255_eq_mod, shiftRight8_eq_div,
        Nat.mul_div_cancel _ (by norm_num : 0 < 256)]
  · have h7' : n >>> 1 ≠ 7 := by rw [shiftRight_one_eq_div_two]; omega
    have hi8 : n / 2 < 8 := by omega
    by_cases hodd : n % 2 = 1
    · rw [if_neg (by omega : ¬n % 2 = 0), if_pos hodd,
        Function.update_noteq h7, Function.update_noteq h7',
        and_255_eq_mod, shiftRight_one_eq_div_two]
    · rw [if_pos (by omega : n % 2 = 0), if_neg hodd,
        Function.update_noteq h7, Function.update_noteq h7',
        shiftRight_one_eq_div_two, shiftRight8_eq_div]
      have hlt : f (n / 2) / 256 < 256 := by
        have := hb (n / 2) hi8
        omega
      rw [Nat.mod_eq_of_lt hlt]

/-- Claim C3 (CRC routine is the vendor algorithm bit-exactly): for every
array of 16-bit words, the CRC the source computes equals the CRC described
by spec §4.1 steps 2–5 (bytes high-first, XOR into a 16-bit remainder, 8
shift/XOR-0x3000 iterations per byte, bits 12–15 of the result). -/
theorem c3_crc_equals_spec_crc (f : ℕ → ℕ) (hb : ∀ i, i < 8 → f i < 65536) :
    crc4 f = crcSpec f := by
  rw [crc4_formula]
  show _ =
    (((specBytes (Function.update f 7 (f 7 / 256 * 256))).foldl
      (fun r b => crcStepSpec^[8] (r ^^^ b)) 0) >>> 12) &&& 0x0F
  rw [specBytes_eq_byteList f hb, crcStepSpec_eq_crcStep,
    Nat.and_comm 0x000F _]
  rfl

/-- Witness for C3: the two CRC definitions agree on a concrete array. -/
theorem c3_crc_equals_spec_crc_witness :
    crc4 (coeffsOfList [40000, 50000, 60000, 123, 456, 789, 65535, 54321]) =
      crcSpec (coeffsOfList [40000, 50000, 60000, 123, 456, 789, 65535, 54321]) :=
  c3_crc_equals_spec_crc _ (by decide)

/-- Claim C10 (frame effect of the CRC routine): after `MS_5803_CRC` returns,
every entry of the coefficient array — including word 7, whose low byte was
temporarily zeroed — equals its value before the call. -/
theorem c10_crc_has_no_side_effect (sensorCoeffs : ℕ → ℕ) :
    (MS_5803_CRC sensorCoeffs).2 = sensorCoeffs := by
  unfold MS_5803_CRC
  simp only [Function.update_idem, Function.update_eq_self]

/-- Claim C1, evaluation at the failing input: with coefficients
`(0,0,0,0,0,0,0,0x0010)` the computed CRC is 0 and the low 4 bits of
coefficient 7 are 0 — a match per the claim — yet the init call returns
`false`, because the source compares the computed CRC with the full low
byte of coefficient 7 (here 16), not with its low 4 bits. -/
theorem c1_init_compares_full_low_byte :
    (initMS_5803 true 512 (coeffsOfList [0, 0, 0, 0, 0, 0, 0, 16])).ok = false ∧
    crc4 (coeffsOfList [0, 0, 0, 0, 0, 0, 0, 16]) = 0 ∧
    coeffsOfList [0, 0, 0, 0, 0, 0, 0, 16] 7 % 16 = 0 := by
  decide

/-- Claim C4, evaluation at the failing input: at the maximum 24-bit `d1`
with extreme coefficients (`c5 = c6 = 0xFFFF`, `d2 = 0`) the second-order
offset term wraps around: the code stores `OFF2 = -393210`, while the
arbitrary-precision evaluation of the same formula gives `6442057734`. -/
theorem c4_off2_wraps_at_extreme_input :
    (convertRaw (coeffsOfList [0, 0, 0, 0, 0, 65535, 65535]) 16777215 0).OFF2 = -393210 ∧
    (specConvert (coeffsOfList [0, 0, 0, 0, 0, 65535, 65535]) 16777215 0).OFF2 = 6442057734 := by
  decide

/-- Claim C2, counterexample: at `d1 = 0`, `d2 = 0`, `c5 = c6 = 0xFFFF`
the pressure the code computes differs from the §4.2 pipeline value — the
32-bit squaring inside the second-order terms has wrapped around, so
`convertRaw` does not compute the spec's pipeline on every input. -/
theorem c2_pipeline_differs_at_extreme_input :
    (convertRaw (coeffsOfList [0, 0, 0, 0, 0, 65535, 65535]) 0 0).mbarInt ≠
    (specConvert (coeffsOfList [0, 0, 0, 0, 0, 65535, 65535]) 0 0).mbarInt := by
  decide

/-- Claim C7, counterexample: at `c5 = 0xFFFF`, `c6 = 40000`, `d2 = 0`
(first-order TEMP far below 2000) the stored `Sens2` is not
`7*(TEMP-2000)^2/8`: the squaring was done in 32-bit arithmetic and
wrapped. -/
theorem c7_sens2_formula_fails_at_extreme_input :
    (convertRaw (coeffsOfList [0, 0, 0, 0, 0, 65535, 40000]) 0 0).Sens2 ≠
    (specConvert (coeffsOfList [0, 0, 0, 0, 0, 65535, 40000]) 0 0).Sens2 := by
  decide

/-- Claim C5, counterexample: resolution 300 is outside the enumerated set,
yet the init call still returns `true` (its return value depends only on the
CRC check) — the configuration error is not reported to the caller. -/
theorem c5_invalid_resolution_still_returns_true :
    validResolution 300 = false ∧
    (initMS_5803 true 300 (coeffsOfList [])).ok = true := by
  decide

/-- Claim C6, counterexample trace: construct the driver, run the init call
on a coefficient set whose CRC check fails (it returns `false`), then call
`readSensor`.  A compensated reading is produced anyway, from the very
coefficient set whose validation just failed. -/
theorem c6_reading_after_failed_validation :
    ((runTrace (MS_5803mk 512 ⟨0, coeffsOfList [], 0, 0, convertRaw (coeffsOfList []) 0 0⟩)
        [Op.opInit (coeffsOfList [0, 0, 0, 0, 0, 0, 0, 1]), Op.opRead 1000 1000]).2.getD 0
        .evNone = .evInit false) ∧
    (((runTrace (MS_5803mk 512 ⟨0, coeffsOfList [], 0, 0, convertRaw (coeffsOfList []) 0 0⟩)
        [Op.opInit (coeffsOfList [0, 0, 0, 0, 0, 0, 0, 1]), Op.opRead 1000 1000]).2.getD 1
        .evNone).isReading = true) ∧
    (runTrace (MS_5803mk 512 ⟨0, coeffsOfList [], 0, 0, convertRaw (coeffsOfList []) 0 0⟩)
        [Op.opInit (coeffsOfList [0, 0, 0, 0, 0, 0, 0, 1]), Op.opRead 1000 1000]).1.sensorCoeffs
        7 = 1 := by
  decide

/-- Claim C6, amended: the driver itself never withholds a reading —
`readSensor` always produces a compensated reading, computed by `convertRaw`
from whatever coefficient set is currently stored, with no check that a CRC
validation was ever performed or succeeded; the only validation signal is
the init call's return value, which the caller must check. -/
theorem c6_amended_read_is_unguarded (s : SensorState) (d1 d2 : ℕ) :
    (exec s (Op.opRead d1 d2)).2.isReading = true ∧
    (exec s (Op.opRead d1 d2)).1.conv =
      convertRaw s.sensorCoeffs
        (if validResolution s._Resolution then d1 else s.varD1)
        (if validResolution s._Resolution then d2 else s.varD2) := by
  constructor
  · rfl
  · rfl

/-- Claim C5, amended: an oversampling resolution outside
{256,512,1024,2048,4096} is detected, but reported only as a Verbose-mode
diagnostic message; the init call's return value is unaffected by the
resolution (it depends only on the CRC comparison), and `readSensor` with an
invalid resolution performs no ADC conversion — it leaves `varD1`/`varD2`
unchanged and silently re-converts those stale values. -/
theorem c5_amended_resolution_only_printed :
    (∀ (v : Bool) (res res' : ℕ) (c : ℕ → ℕ),
      (initMS_5803 v res c).ok = (initMS_5803 v res' c).ok) ∧
    (∀ (v : Bool) (res : ℕ) (c : ℕ → ℕ),
      (initMS_5803 v res c).printedResolutionError = (v && !validResolution res)) ∧
    (∀ (s : SensorState) (d1 d2 : ℕ), validResolution s._Resolution = false →
      (exec s (Op.opRead d1 d2)).1.varD1 = s.varD1 ∧
      (exec s (Op.opRead d1 d2)).1.varD2 = s.varD2 ∧
      (exec s (Op.opRead d1 d2)).1.conv = convertRaw s.sensorCoeffs s.varD1 s.varD2) := by
  refine ⟨fun v res res' c => rfl, fun v res c => rfl, fun s d1 d2 h => ?_⟩
  have e1 : (exec s (Op.opRead d1 d2)).1.varD1 =
      (if validResolution s._Resolution then d1 else s.varD1) := rfl
  have e2 : (exec s (Op.opRead d1 d2)).1.varD2 =
      (if validResolution s._Resolution then d2 else s.varD2) := rfl
  have e3 : (exec s (Op.opRead d1 d2)).1.conv =
      convertRaw s.sensorCoeffs
        (if validResolution s._Resolution then d1 else s.varD1)
        (if validResolution s._Resolution then d2 else s.varD2) := rfl
  rw [e1, e2, e3, h]
  simp

/-- Witness for C5 (amended): instantiated at a concrete state with the
invalid resolution 300. -/
theorem c5_amended_resolution_only_printed_witness :
    (exec ⟨300, coeffsOfList [1, 2, 3], 5, 7, convertRaw (coeffsOfList [1, 2, 3]) 5 7⟩
      (Op.opRead 111 222)).1.varD1 = 5 :=
  (c5_amended_resolution_only_printed.2.2
    ⟨300, coeffsOfList [1, 2, 3], 5, 7, convertRaw (coeffsOfList [1, 2, 3]) 5 7⟩
    111 222 (by decide)).1

end MS5803
